import Mathlib

/-
Verification of the workflow-construction functions in
matmethods/vasp/workflows/base/adsorption.py (get_wf_adsorption, get_wf_molecules).

The two builders are shallowly embedded as pure Lean functions.  Everything the
module delegates to external libraries (pymatgen structure manipulation,
fireworks job containers, VASP input-set presets) is taken as an oracle field of
an `ExternalLib` record, except where a claim depends on the operation's
documented contract, in which case the operation is modelled concretely and the
doc comment says from where.

Python's mutable default arguments `slab_incar_params={}` and
`ads_incar_params={}` (source lines 88-89) are shared, in-place-mutated state
that survives across calls; they are modelled explicitly as a `PyState` record
threaded through `get_wf_adsorption`.  The `ValueError` raises are modelled with
`Except`; alongside the `Except` result the function returns the list of job
descriptors that had been constructed when the function exited (the local `fws`
list of the source), so that "no job is created before the error" is a statable
property.
-/

set_option linter.unusedVariables false

namespace Matmethods

/-- Values stored in INCAR-override dictionaries: the source stores booleans
(`"LDAU": False`, line 115), ints (`"IDIPOL": 3`, line 143), strings
(`"LDIPOL": "True"`, line 142) and numeric vectors (`"DIPOL": [0, 0, 0.5]`,
line 140). -/
inductive IVal where
  | b (v : Bool)
  | i (v : Int)
  | s (v : String)
  | vec (v : List ℚ)
deriving DecidableEq, Repr

/-- Python truthiness of an INCAR value, used by `if not v.incar.get("LDAU", None)`
(source line 114). -/
def IVal.truthy : IVal → Bool
  | .b v => v
  | .i v => decide (v ≠ 0)
  | .s v => decide (v ≠ "")
  | .vec v => decide (v ≠ [])

/-- Per-site property values: strings (for example `surface_properties`) and
3-vectors (for example the zero `velocities` attached at source line 178). -/
inductive PVal where
  | s (v : String)
  | v3 (x y z : ℚ)
deriving DecidableEq, Repr

/-- First-match lookup in a string-keyed association list (Python `dict` read). -/
def lookupKey {β : Type} : List (String × β) → String → Option β
  | [], _ => none
  | p :: d, k => if p.1 = k then some p.2 else lookupKey d k

/-- Python `dict` single-key write: if the key is present its value is replaced
in place (insertion order kept), otherwise the pair is appended.  A Python
dict cannot hold duplicate keys, so the first occurrence is the entry. -/
def setKey {β : Type} : List (String × β) → String → β → List (String × β)
  | [], k, v => [(k, v)]
  | p :: d, k, v => if p.1 = k then (k, v) :: d else p :: setKey d k v

/-- Python `dict.update`: write each pair of `u` in order into `d`. -/
def dictUpdate {β : Type} (d u : List (String × β)) : List (String × β) :=
  u.foldl (fun d p => setKey d p.1 p.2) d

/-- Python 3 `round` on an exact rational: round half to even. -/
def pyRound (q : ℚ) : ℤ :=
  if q - ⌊q⌋ < 1/2 then ⌊q⌋
  else if 1/2 < q - ⌊q⌋ then ⌊q⌋ + 1
  else if ⌊q⌋ % 2 = 0 then ⌊q⌋ else ⌊q⌋ + 1

/-- A site of a periodic structure: species label, fractional coordinates and
per-site properties. -/
structure Site where
  speciesString : String
  fracCoords : ℚ × ℚ × ℚ
  props : List (String × PVal)
deriving DecidableEq, Repr

/-- A periodic structure; only the fields the source reads are kept
(lattice parameters and the site list). -/
structure Structure where
  latticeA : ℚ
  latticeB : ℚ
  latticeC : ℚ
  sites : List Site
deriving DecidableEq, Repr

/-- A generated surface slab, as read by the source: `slab.miller_index`,
`slab.shift`, `slab.lattice.a`, `slab.lattice.b`,
`slab.composition.reduced_formula`. -/
structure Slab where
  millerIndex : List ℤ
  shift : ℚ
  latticeA : ℚ
  latticeB : ℚ
  compositionReducedFormula : String
deriving DecidableEq, Repr

/-- An adsorption-site candidate structure produced by the external site
finder, as read by the source: lattice parameters and tagged sites. -/
structure CandStructure where
  latticeA : ℚ
  latticeB : ℚ
  sites : List Site
deriving DecidableEq, Repr

/-- An adsorbate molecule, as read by the source: species with cartesian
coordinates and `composition.reduced_formula`. -/
structure Molecule where
  species : List String
  cartCoords : List (ℚ × ℚ × ℚ)
  reducedFormula : String
deriving DecidableEq, Repr

/-- Write one per-site property (pymatgen keeps one value per key per site). -/
def Site.setProp (s : Site) (k : String) (v : PVal) : Site :=
  { s with props := setKey s.props k v }

/-- Modelled from the spec and the pymatgen contract of
`Structure.add_site_property`: the i-th value is attached to the i-th site
under the given key. -/
def CandStructure.addSiteProperty (c : CandStructure) (k : String)
    (vals : List PVal) : CandStructure :=
  { c with sites := List.zipWith (fun s v => s.setProp k v) c.sites vals }

/-- Modelled from the pymatgen contract of `Structure.site_properties`: a
mapping from each property key occurring on some site to the per-site list of
its values (`none` where a site lacks the key). -/
def CandStructure.siteProperties (c : CandStructure) :
    List (String × List (Option PVal)) :=
  ((c.sites.map (fun s => s.props.map Prod.fst)).flatten.dedup).map
    (fun k => (k, c.sites.map (fun s => lookupKey s.props k)))

/-- A DFT input set: the base INCAR of the preset (read for the `LDAU` check at
source line 114) and the caller-supplied overrides the source passes as
`user_incar_settings`. -/
structure VaspInputSet where
  incar : List (String × IVal)
  userIncarSettings : List (String × IVal)
deriving DecidableEq, Repr

/-- The keyword arguments of `SlabTransformation` built at source lines 147-152.
The source hardcodes `"center_slab": True` (line 151) rather than passing the
caller's `center_slab` argument. -/
structure SlabTransParams where
  miller_index : List ℤ
  min_slab_size : ℚ
  min_vacuum_size : ℚ
  shift : ℚ
  center_slab : Bool
  max_normal_search : ℤ
deriving DecidableEq, Repr

/-- Parameter dictionaries of the four transformation kinds the source uses. -/
inductive TransParams where
  | slab (p : SlabTransParams)
  | supercell (scaling_matrix : List (List ℤ))
  | insertSites (species : List String) (coords : List (ℚ × ℚ × ℚ))
  | siteProps (site_properties : List (String × List (Option PVal)))
deriving DecidableEq, Repr

/-- The two job-constructor kinds the source uses. -/
inductive FwKind where
  | optimize
  | transmuter
deriving DecidableEq, Repr

/-- Modelled from the spec: a job descriptor (Firework) carries a name, a
target structure, an ordered list of named transformations with their
parameters, a reference input set, the external command, the credentials path
and its parent job references.  Parents are recorded as indices into the
workflow's job list; index 0 is the bulk job, which is always appended first. -/
structure Firework where
  name : String
  kind : FwKind
  struct : Structure
  transformations : List String
  transformationParams : List TransParams
  vaspInputSet : VaspInputSet
  copyVaspOutputs : Bool
  vaspCmd : String
  dbFile : Option String
  parents : List Nat
deriving DecidableEq, Repr

/-- Modelled from the spec: a Workflow aggregates the job descriptors plus the
dependency edges implied by their parent references, under a display name. -/
structure Workflow where
  fws : List Firework
  name : String
deriving DecidableEq, Repr

/-- Modelled from the spec: OptimizeFW (defined in matmethods.vasp.fireworks.core,
which is not under src/) builds one structure-relaxation job descriptor; when no
parents are given the job has none. -/
def OptimizeFW (struct : Structure) (vasp_input_set : VaspInputSet)
    (vasp_cmd : String) (db_file : Option String) : Firework :=
  { name := "structure optimization", kind := FwKind.optimize, struct := struct,
    transformations := [], transformationParams := [],
    vaspInputSet := vasp_input_set, copyVaspOutputs := false,
    vaspCmd := vasp_cmd, dbFile := db_file, parents := [] }

/-- Modelled from the spec: TransmuterFW (defined in
matmethods.vasp.fireworks.core, which is not under src/) builds one job
descriptor carrying the given name, structure, transformation list with
parameters, input set, command, credentials path and parent references. -/
def TransmuterFW (name : String) (struct : Structure)
    (transformations : List String) (transformation_params : List TransParams)
    (copy_vasp_outputs : Bool) (db_file : Option String) (vasp_cmd : String)
    (parents : List Nat) (vasp_input_set : VaspInputSet) : Firework :=
  { name := name, kind := FwKind.transmuter, struct := struct,
    transformations := transformations,
    transformationParams := transformation_params,
    vaspInputSet := vasp_input_set, copyVaspOutputs := copy_vasp_outputs,
    vaspCmd := vasp_cmd, dbFile := db_file, parents := parents }

/-- The external library operations the source delegates to, taken as black
boxes (spec section 6): conventional-cell standardization, input-set presets,
slab enumeration, adsorption-site enumeration (invoked by the source with
selective_dynamics=True), canonical re-sorting, and formula printing. -/
structure ExternalLib where
  getConventional : Structure → Structure
  mvlBulkSet : Structure → VaspInputSet
  mvlSlabIncar : Slab → List (String × IVal) → List (String × IVal)
  mvlStructIncar : Structure → List (String × IVal) → List (String × IVal)
  genSlabs : Structure → ℤ → ℚ → ℚ → ℤ → Bool → List Slab
  genAdsorptionStructures : Slab → Molecule → List CandStructure
  getSorted : CandStructure → CandStructure
  reducedFormula : Structure → String
  mpRelaxSet : Structure → List (String × IVal) → VaspInputSet
  dictSetKp1 : Structure → VaspInputSet → VaspInputSet

/-- The interpreter-level shared state of get_wf_adsorption: the contents of
the two mutable default-argument dictionaries `slab_incar_params={}` and
`ads_incar_params={}` (source lines 88-89), which persist across calls and are
mutated in place (source lines 115-116 and 145-146). -/
structure PyState where
  slabIncarDefault : List (String × IVal)
  adsIncarDefault : List (String × IVal)
deriving DecidableEq, Repr

/-- The fresh-interpreter state: both default dictionaries empty. -/
def PyState.init : PyState := { slabIncarDefault := [], adsIncarDefault := [] }

/-- The arguments of get_wf_adsorption (source lines 85-89), with the source's
default values.  `none` for the two INCAR-override arguments means the caller
omitted them, so the call uses (and mutates) the shared default dictionaries.
The `slab_gen_config` parameter is omitted: the source never reads it. -/
structure AdsArgs where
  struct : Structure
  adsorbate_config : List (String × List Molecule)
  vasp_input_set : Option VaspInputSet := none
  min_slab_size : ℚ := 7
  min_vacuum_size : ℚ := 12
  center_slab : Bool := true
  max_normal_search : ℤ := 1
  vasp_cmd : String := "vasp"
  db_file : Option String := none
  conventional : Bool := true
  slab_incar_params : Option (List (String × IVal)) := none
  ads_incar_params : Option (List (String × IVal)) := none
  auto_dipole : Bool := true

/-- The ValueError exits of get_wf_adsorption: `int(i)` on a non-digit
character, `max([])` on an empty sequence (source line 121), and the explicit
raise for a Miller-index key with no generated slab (source lines 129-132),
which carries the list of generated Miller-index strings. -/
inductive WfError where
  | intParse (c : Char)
  | emptyMax
  | millerNotInList (available : List String)
deriving DecidableEq, Repr

/-- Python `int` on a single character: its digit value, or a ValueError. -/
def charToInt? (c : Char) : Option ℤ :=
  if c.isDigit then some ((c.toNat : ℤ) - 48) else none

/-- The list comprehension `[int(i) for i in s]`: evaluated left to right,
raising at the first non-digit character. -/
def parseDigits : List Char → Except WfError (List ℤ)
  | [] => Except.ok []
  | c :: cs =>
    match charToInt? c with
    | none => Except.error (WfError.intParse c)
    | some d => (parseDigits cs).map (fun l => d :: l)

/-- Source line 121: `max([int(i) for i in ''.join(adsorbate_config.keys())])`.
`max` of an empty sequence is a ValueError. -/
def maxIndexOf (cfg : List (String × List Molecule)) : Except WfError ℤ :=
  match parseDigits (String.join (cfg.map Prod.fst)).toList with
  | Except.error e => Except.error e
  | Except.ok [] => Except.error WfError.emptyMax
  | Except.ok (d :: ds) => Except.ok (ds.foldl max d)

/-- Source lines 127-128 and 135: `''.join([str(i) for i in slab.miller_index])`. -/
def millerString (mi : List ℤ) : String := String.join (mi.map toString)

/-- The requested Miller-index keys, in insertion order. -/
def keysOf (a : AdsArgs) : List String := a.adsorbate_config.map Prod.fst

/-- Source lines 110-112: optional replacement of the input structure by its
conventional standard form. -/
def normStructure (ext : ExternalLib) (a : AdsArgs) : Structure :=
  if a.conventional then ext.getConventional a.struct else a.struct

/-- Source line 113: `v = vasp_input_set or MVLSlabSet(structure, bulk=True)`. -/
def vOf (ext : ExternalLib) (a : AdsArgs) : VaspInputSet :=
  a.vasp_input_set.getD (ext.mvlBulkSet (normStructure ext a))

/-- Source line 114: truthiness of `v.incar.get("LDAU", None)`. -/
def ldauTruthy (v : VaspInputSet) : Bool :=
  match lookupKey v.incar "LDAU" with
  | some x => x.truthy
  | none => false

/-- Source lines 114-116 for the slab overrides: resolve the caller's
dictionary (or the shared default) and write `{"LDAU": False}` into it when the
base set has no truthy LDAU. -/
def slabIncar1 (ext : ExternalLib) (st : PyState) (a : AdsArgs) :
    List (String × IVal) :=
  let d := a.slab_incar_params.getD st.slabIncarDefault
  if ldauTruthy (vOf ext a) then d else dictUpdate d [("LDAU", IVal.b false)]

/-- Source lines 114-115 for the adsorbate overrides. -/
def adsIncar1 (ext : ExternalLib) (st : PyState) (a : AdsArgs) :
    List (String × IVal) :=
  let d := a.ads_incar_params.getD st.adsIncarDefault
  if ldauTruthy (vOf ext a) then d else dictUpdate d [("LDAU", IVal.b false)]

/-- Source lines 118-119: the bulk relaxation job, appended before anything
else. -/
def bulkFwOf (ext : ExternalLib) (a : AdsArgs) : Firework :=
  OptimizeFW (normStructure ext a) (vOf ext a) a.vasp_cmd a.db_file

/-- Source lines 122-126: `generate_decorated_slabs(structure, max_index,
min_slab_size, min_vacuum_size, max_normal_search, center_slab)`. -/
def slabsOf (ext : ExternalLib) (a : AdsArgs) (max_index : ℤ) : List Slab :=
  ext.genSlabs (normStructure ext a) max_index a.min_slab_size a.min_vacuum_size
    a.max_normal_search a.center_slab

/-- Source lines 127-128: the Miller-index strings of the generated slabs. -/
def miStringsOf (slabs : List Slab) : List String :=
  slabs.map (fun slab => millerString slab.millerIndex)

/-- Source lines 140-144: the dipole-correction settings written into both
override dictionaries when `auto_dipole` is set (the `dipol_center` is the
constant `[0, 0, 0.5]`; the `weights` computed at line 139 are never used and
are omitted here). -/
def dipole_dict : List (String × IVal) :=
  [("LDIPOL", IVal.s "True"), ("IDIPOL", IVal.i 3), ("DIPOL", IVal.vec [0, 0, 1/2])]

/-- Source lines 147-152: the SlabTransformation parameters, with
`center_slab` hardcoded to `True` (line 151). -/
def slabTransParamsOf (a : AdsArgs) (slab : Slab) : SlabTransParams :=
  { miller_index := slab.millerIndex, min_slab_size := a.min_slab_size,
    min_vacuum_size := a.min_vacuum_size, shift := slab.shift,
    center_slab := true, max_normal_search := a.max_normal_search }

/-- Source lines 154-167: the slab relaxation job for one matching slab, built
against the override dictionary as it stands at that loop iteration. -/
def slabFwOf (ext : ExternalLib) (a : AdsArgs) (structure0 : Structure)
    (slabIncar : List (String × IVal)) (slab : Slab) : Firework :=
  let mi_string := millerString slab.millerIndex
  let fw_name := slab.compositionReducedFormula ++ "_" ++ mi_string ++
    " slab optimization"
  let vis_slab : VaspInputSet :=
    { incar := ext.mvlSlabIncar slab slabIncar, userIncarSettings := slabIncar }
  TransmuterFW fw_name structure0 ["SlabTransformation"]
    [TransParams.slab (slabTransParamsOf a slab)] true a.db_file a.vasp_cmd [0]
    vis_slab

/-- Source lines 173 and 178: the candidate structure after canonical
re-sorting and after the zero `velocities` property is attached to every
site. -/
def sortedWithVel (ext : ExternalLib) (cand : CandStructure) : CandStructure :=
  let struct0 := ext.getSorted cand
  struct0.addSiteProperty "velocities"
    (List.replicate struct0.sites.length (PVal.v3 0 0 0))

/-- Source lines 184-185: the sites whose `surface_properties` tag is
`"adsorbate"`. -/
def adsSitesOf (c : CandStructure) : List Site :=
  c.sites.filter
    (fun site => lookupKey site.props "surface_properties" == some (PVal.s "adsorbate"))

/-- The adsorbate transformation chain (source lines 179-180). -/
def adsTransChain : List String :=
  ["SlabTransformation", "SupercellTransformation", "InsertSitesTransformation",
   "AddSitePropertyTransformation"]

/-- Source lines 172-201: the adsorbate job for one candidate structure: sort
the candidate (line 173), attach zero velocities to every site (line 178), and
build the 4-step transformation chain with the supercell scaling factors
`round(struct.lattice.a / slab.lattice.a)` and
`round(struct.lattice.b / slab.lattice.b)` (lines 181-183) and the species and
fractional coordinates of the sites whose `surface_properties` is
`"adsorbate"` (lines 184-190). -/
def adsFwOf (ext : ExternalLib) (a : AdsArgs) (structure0 : Structure)
    (adsIncar : List (String × IVal)) (slab : Slab) (mi_string : String)
    (molecule : Molecule) (cand : CandStructure) : Firework :=
  let ads_fw_name := molecule.reducedFormula ++ "-" ++
    ext.reducedFormula structure0 ++ "_" ++ mi_string ++
    " adsorbate optimization"
  let struct := sortedWithVel ext cand
  let scaling_matrix : List (List ℤ) :=
    [[pyRound (struct.latticeA / slab.latticeA), 0, 0],
     [0, pyRound (struct.latticeB / slab.latticeB), 0],
     [0, 0, 1]]
  let ads_sites := adsSitesOf struct
  let trans_ads_params := [TransParams.slab (slabTransParamsOf a slab),
    TransParams.supercell scaling_matrix,
    TransParams.insertSites (ads_sites.map (fun site => site.speciesString))
      (ads_sites.map (fun site => site.fracCoords)),
    TransParams.siteProps struct.siteProperties]
  let vis_ads : VaspInputSet :=
    { incar := ext.mvlStructIncar structure0 adsIncar, userIncarSettings := adsIncar }
  TransmuterFW ads_fw_name structure0 adsTransChain trans_ads_params true a.db_file
    a.vasp_cmd [0] vis_ads

/-- Source lines 168-201: all adsorbate jobs for one matching slab, one per
candidate structure, per requested molecule. -/
def adsFwsOf (ext : ExternalLib) (a : AdsArgs) (structure0 : Structure)
    (adsIncar : List (String × IVal)) (slab : Slab) : List Firework :=
  let mi_string := millerString slab.millerIndex
  ((lookupKey a.adsorbate_config mi_string).getD []).flatMap (fun molecule =>
    (ext.genAdsorptionStructures slab molecule).map
      (adsFwOf ext a structure0 adsIncar slab mi_string molecule))

/-- Source lines 134-201: one iteration of the slab loop.  The accumulator is
the pair of override dictionaries (mutated in place by the source at lines
145-146) together with the `fws` list. -/
def processSlab (ext : ExternalLib) (a : AdsArgs) (structure0 : Structure)
    (acc : List (String × IVal) × List (String × IVal) × List Firework)
    (slab : Slab) : List (String × IVal) × List (String × IVal) × List Firework :=
  let mi_string := millerString slab.millerIndex
  if (keysOf a).contains mi_string then
    let slabIncar := if a.auto_dipole then dictUpdate acc.1 dipole_dict else acc.1
    let adsIncar := if a.auto_dipole then dictUpdate acc.2.1 dipole_dict else acc.2.1
    (slabIncar, adsIncar,
      acc.2.2 ++ slabFwOf ext a structure0 slabIncar slab ::
        adsFwsOf ext a structure0 adsIncar slab)
  else acc

/-- Write-back of the in-place mutations: when the caller omitted an
INCAR-override argument, the shared default dictionary was the mutated object,
so its new contents persist into the interpreter state. -/
def writeState (st : PyState) (a : AdsArgs)
    (si ai : List (String × IVal)) : PyState :=
  { slabIncarDefault := if a.slab_incar_params.isNone then si else st.slabIncarDefault,
    adsIncarDefault := if a.ads_incar_params.isNone then ai else st.adsIncarDefault }

/-- Source lines 127-203: the part of get_wf_adsorption downstream of slab
enumeration, as a function of the generated slab list: validate every requested
key against the generated Miller-index strings (raising the descriptive
ValueError otherwise, lines 129-132), run the slab loop, and wrap the job list
into a named Workflow (lines 202-203). -/
def adsWithSlabs (ext : ExternalLib) (st : PyState) (a : AdsArgs)
    (slabs : List Slab) :
    PyState × List Firework × Except WfError Workflow :=
  let structure0 := normStructure ext a
  let si1 := slabIncar1 ext st a
  let ai1 := adsIncar1 ext st a
  let fws0 := [bulkFwOf ext a]
  let mi_strings := miStringsOf slabs
  if (keysOf a).all (fun k => mi_strings.contains k) then
    let r := slabs.foldl (processSlab ext a structure0) (si1, ai1, fws0)
    (writeState st a r.1 r.2.1, r.2.2,
      Except.ok (Workflow.mk r.2.2
        (ext.reducedFormula structure0 ++ ":" ++ "Adsorbate calculations")))
  else
    (writeState st a si1 ai1, fws0,
      Except.error (WfError.millerNotInList mi_strings))

/-- Source lines 85-203: get_wf_adsorption.  Returns the interpreter state
after the call (the contents of the two shared default dictionaries), the list
of job descriptors constructed by the call (the source's local `fws` at exit),
and either the Workflow or the ValueError that was raised.  Note the bulk job
is appended (line 118) before `max_index` is computed (line 121) and before the
Miller-index validation (lines 129-132). -/
def get_wf_adsorption (ext : ExternalLib) (st : PyState) (a : AdsArgs) :
    PyState × List Firework × Except WfError Workflow :=
  match maxIndexOf a.adsorbate_config with
  | Except.error e =>
    (writeState st a (slabIncar1 ext st a) (adsIncar1 ext st a),
      [bulkFwOf ext a], Except.error e)
  | Except.ok max_index => adsWithSlabs ext st a (slabsOf ext a max_index)

/-- The arguments of get_wf_molecules (source lines 205-207), with the
source's default values. -/
structure MolArgs where
  molecules : List Molecule
  vasp_input_sets : Option (List (Option VaspInputSet)) := none
  min_vacuum_size : ℚ := 15
  vasp_cmd : String := "vasp"
  db_file : Option String := none

/-- Source lines 229-230: `Structure(Lattice.cubic(min_vacuum_size),
molecule.species_and_occu, molecule.cart_coords, coords_are_cartesian=True)`.
Modelled from the pymatgen contract: in a cubic cell of edge `L` the fractional
coordinates of a cartesian point are its components divided by `L`. -/
def moleculeBoxStructure (L : ℚ) (m : Molecule) : Structure :=
  { latticeA := L, latticeB := L, latticeC := L,
    sites := (m.species.zip m.cartCoords).map (fun p =>
      { speciesString := p.1,
        fracCoords := (p.2.1 / L, p.2.2.1 / L, p.2.2.2 / L), props := [] }) }

/-- Componentwise mean of the fractional coordinates:
`np.average(m_struct.frac_coords, axis=0)` (source line 232). -/
def fracCentroid (s : Structure) : ℚ × ℚ × ℚ :=
  ((s.sites.map (fun t => t.fracCoords.1)).sum / s.sites.length,
   (s.sites.map (fun t => t.fracCoords.2.1)).sum / s.sites.length,
   (s.sites.map (fun t => t.fracCoords.2.2)).sum / s.sites.length)

/-- Modelled from the spec: the external translate operation moves every atom
by the given fractional vector ("centering is done by translating every atom by
the difference between cell-center (0.5,0.5,0.5 fractional) and the molecule's
current fractional centroid", spec section 4.2). -/
def translateSites (s : Structure) (d : ℚ × ℚ × ℚ) : Structure :=
  { s with sites := s.sites.map (fun t =>
      { t with fracCoords := (t.fracCoords.1 + d.1, t.fracCoords.2.1 + d.2.1,
          t.fracCoords.2.2 + d.2.2) }) }

/-- Source line 232: `np.array([0.5]*3) - np.average(m_struct.frac_coords, axis=0)`. -/
def centerShift (s : Structure) : ℚ × ℚ × ℚ :=
  (1/2 - (fracCentroid s).1, 1/2 - (fracCentroid s).2.1, 1/2 - (fracCentroid s).2.2)

/-- Source lines 228-240: one molecule-reference job: box the molecule, center
it, resolve the input set (lines 233-237, the k-point override folded into the
`dictSetKp1` oracle) and build the parentless relaxation job. -/
def molFwOf (ext : ExternalLib) (a : MolArgs)
    (p : Molecule × Option VaspInputSet) : Firework :=
  let m_struct0 := moleculeBoxStructure a.min_vacuum_size p.1
  let m_struct := translateSites m_struct0 (centerShift m_struct0)
  let v0 := (p.2).getD (ext.mpRelaxSet m_struct
    [("ISMEAR", IVal.i 0), ("IBRION", IVal.i 5), ("ISIF", IVal.i 2)])
  let v := ext.dictSetKp1 m_struct v0
  OptimizeFW m_struct v a.vasp_cmd a.db_file

/-- Source lines 205-242: get_wf_molecules.  `vasp_input_sets or [None for m in
molecules]` replaces a missing or empty list by per-molecule `None`s; `zip`
truncates to the shorter list. -/
def get_wf_molecules (ext : ExternalLib) (a : MolArgs) : Workflow :=
  let viss := match a.vasp_input_sets with
    | some l => if l.isEmpty then a.molecules.map (fun _ => none) else l
    | none => a.molecules.map (fun _ => none)
  Workflow.mk ((a.molecules.zip viss).map (molFwOf ext a)) "Molecule calculations"

/-- The value of an override dictionary inside any matching slab iteration:
when `auto_dipole` is set the dipole settings have been written into it
(source lines 138-146), otherwise it is unchanged. -/
def siFix (a : AdsArgs) (d : List (String × IVal)) : List (String × IVal) :=
  if a.auto_dipole then dictUpdate d dipole_dict else d

/-- The jobs the slab loop contributes for one slab: nothing for a slab whose
Miller-index string was not requested, otherwise the slab job followed by its
adsorbate jobs. -/
def slabJobsOf (ext : ExternalLib) (a : AdsArgs) (structure0 : Structure)
    (siF aiF : List (String × IVal)) (slab : Slab) : List Firework :=
  if (keysOf a).contains (millerString slab.millerIndex) then
    slabFwOf ext a structure0 siF slab :: adsFwsOf ext a structure0 aiF slab
  else []

/-- The full job list of a successful get_wf_adsorption call: the bulk job
followed by the slab-loop contributions. -/
def adsTraceOf (ext : ExternalLib) (st : PyState) (a : AdsArgs)
    (slabs : List Slab) : List Firework :=
  bulkFwOf ext a :: slabs.flatMap (slabJobsOf ext a (normStructure ext a)
    (siFix a (slabIncar1 ext st a)) (siFix a (adsIncar1 ext st a)))

/-- Modelled from the spec's words, for comparison in claim C5: the maximum
single Miller-index digit appearing across the concatenation of all requested
keys (`none` when no digit appears). -/
def specMaxDigit (cfg : List (String × List Molecule)) : Option ℤ :=
  ((String.join (cfg.map Prod.fst)).toList.map (fun c => ((c.toNat : ℤ) - 48))).max?

/-- Extracts the centering flag of a job whose transformation parameters are a
single slab transformation. -/
def fwSlabCenterFlag (fw : Firework) : Option Bool :=
  match fw.transformationParams with
  | [TransParams.slab p] => some p.center_slab
  | _ => none

/-
Concrete fixtures used by the counterexample and witness theorems below.
-/

/-- A tagged adsorbate site. -/
def site0 : Site :=
  { speciesString := "H", fracCoords := (0, 0, 0),
    props := [("surface_properties", PVal.s "adsorbate")] }

/-- A tagged surface site. -/
def siteSurf : Site :=
  { speciesString := "Si", fracCoords := (1/4, 1/4, 0),
    props := [("surface_properties", PVal.s "surface")] }

/-- A minimal bulk structure. -/
def structSi : Structure :=
  { latticeA := 1, latticeB := 1, latticeC := 1, sites := [] }

/-- A generated (111) slab. -/
def slab111 : Slab :=
  { millerIndex := [1, 1, 1], shift := 0, latticeA := 1, latticeB := 1,
    compositionReducedFormula := "Si" }

/-- A two-atom molecule. -/
def mol0 : Molecule :=
  { species := ["H", "H"], cartCoords := [(0, 0, 0), (1, 0, 0)],
    reducedFormula := "H2" }

/-- An adsorption-site candidate structure with one adsorbate site. -/
def cand0 : CandStructure :=
  { latticeA := 5/2, latticeB := 5/2, sites := [siteSurf, site0] }

/-- A concrete oracle record: one generated (111) slab, one candidate
structure per molecule, identity standardization and sorting. -/
def ext0 : ExternalLib :=
  { getConventional := id,
    mvlBulkSet := fun _ => { incar := [], userIncarSettings := [] },
    mvlSlabIncar := fun _ u => u,
    mvlStructIncar := fun _ u => u,
    genSlabs := fun _ _ _ _ _ _ => [slab111],
    genAdsorptionStructures := fun _ _ => [cand0],
    getSorted := id,
    reducedFormula := fun _ => "Si",
    mpRelaxSet := fun _ u => { incar := u, userIncarSettings := u },
    dictSetKp1 := fun _ v => v }

/-- A valid call: the one requested key "111" matches the one generated slab. -/
def args0 : AdsArgs :=
  { struct := structSi, adsorbate_config := [("111", [mol0])] }

/-- An invalid call: the requested key "222" matches no generated slab. -/
def argsBad : AdsArgs :=
  { struct := structSi, adsorbate_config := [("222", [mol0])] }

/-- A call with an empty adsorbate configuration. -/
def argsEmpty : AdsArgs :=
  { struct := structSi, adsorbate_config := [] }

/-- An input set whose base INCAR has a truthy LDAU, so the call performs no
LDAU write of its own. -/
def visLdau : VaspInputSet :=
  { incar := [("LDAU", IVal.b true)], userIncarSettings := [] }

/-- A call that neither writes LDAU (its input set has a truthy LDAU) nor
dipole settings (`auto_dipole=False`), and omits the INCAR-override arguments,
so its slab job records whatever the shared default dictionary holds. -/
def argsB : AdsArgs :=
  { struct := structSi, adsorbate_config := [("111", [])],
    vasp_input_set := some visLdau, auto_dipole := false }

/-- A call with `center_slab=False`. -/
def args4 : AdsArgs :=
  { struct := structSi, adsorbate_config := [("111", [])], center_slab := false }

/-- The workflow of the valid concrete call. -/
def wfOk : Workflow :=
  ((get_wf_adsorption ext0 PyState.init args0).2.2).toOption.getD (Workflow.mk [] "")

/-- A concrete get_wf_molecules call. -/
def molArgs0 : MolArgs := { molecules := [mol0] }

/-- The single job of the concrete get_wf_molecules call. -/
def fwMol0 : Firework := molFwOf ext0 molArgs0 (mol0, none)

/-
Association-list lemmas about the Python dict model.
-/

@[simp]
theorem lookupKey_nil {β : Type} (k : String) :
    lookupKey ([] : List (String × β)) k = none := rfl

@[simp]
theorem lookupKey_cons {β : Type} (p : String × β) (d : List (String × β))
    (k : String) :
    lookupKey (p :: d) k = if p.1 = k then some p.2 else lookupKey d k := rfl

theorem lookupKey_setKey_self {β : Type} (d : List (String × β)) (k : String)
    (v : β) : lookupKey (setKey d k v) k = some v := by
  induction d with
  | nil => simp [setKey]
  | cons p d ih =>
    by_cases hp : p.1 = k
    · simp [setKey, hp]
    · simp [setKey, hp, ih]

theorem lookupKey_setKey_ne {β : Type} (d : List (String × β)) (k k' : String)
    (v : β) (h : k ≠ k') : lookupKey (setKey d k' v) k = lookupKey d k := by
  have hkk : ¬ k' = k := fun hh => h hh.symm
  induction d with
  | nil => simp [setKey, hkk]
  | cons p d ih =>
    by_cases hp : p.1 = k'
    · have hpk : ¬ p.1 = k := fun hh => h (hh ▸ hp)
      simp [setKey, hp, hpk, hkk]
    · simp [setKey, hp, ih]

theorem setKey_eq_self {β : Type} (d : List (String × β)) (k : String) (v : β)
    (h : lookupKey d k = some v) : setKey d k v = d := by
  induction d with
  | nil => simp at h
  | cons p d ih =>
    by_cases hp : p.1 = k
    · have hv : p.2 = v := by
        rw [lookupKey_cons, if_pos hp] at h
        exact (Option.some.injEq _ _).mp h
      have hpv : p = (k, v) := Prod.ext hp hv
      simp [setKey, hp, hpv]
    · rw [lookupKey_cons, if_neg hp] at h
      simp [setKey, hp, ih h]

@[simp]
theorem dictUpdate_nil {β : Type} (d : List (String × β)) :
    dictUpdate d [] = d := rfl

@[simp]
theorem dictUpdate_cons {β : Type} (d : List (String × β)) (q : String × β)
    (u : List (String × β)) :
    dictUpdate d (q :: u) = dictUpdate (setKey d q.1 q.2) u := rfl

theorem lookupKey_dictUpdate_not_mem {β : Type} (u : List (String × β))
    (k : String) (hu : ∀ q ∈ u, q.1 ≠ k) (d : List (String × β)) :
    lookupKey (dictUpdate d u) k = lookupKey d k := by
  induction u generalizing d with
  | nil => rfl
  | cons q u ih =>
    rw [dictUpdate_cons, ih (fun r hr => hu r (List.mem_cons_of_mem q hr)),
      lookupKey_setKey_ne]
    exact fun hh => hu q (List.mem_cons_self q u) hh.symm

theorem dictUpdate_idem {β : Type} (u : List (String × β))
    (hu : u.Pairwise (fun p q => p.1 ≠ q.1)) (d : List (String × β)) :
    dictUpdate (dictUpdate d u) u = dictUpdate d u := by
  induction u generalizing d with
  | nil => rfl
  | cons q u ih =>
    rw [List.pairwise_cons] at hu
    rw [dictUpdate_cons, dictUpdate_cons]
    have hD : lookupKey (dictUpdate (setKey d q.1 q.2) u) q.1 = some q.2 := by
      rw [lookupKey_dictUpdate_not_mem u q.1
        (fun r hr hh => hu.1 r hr hh.symm), lookupKey_setKey_self]
    rw [setKey_eq_self _ _ _ hD]
    exact ih hu.2 (setKey d q.1 q.2)

theorem dipole_pairwise : dipole_dict.Pairwise (fun p q => p.1 ≠ q.1) := by
  simp [dipole_dict, List.pairwise_cons]

theorem siFix_idem (a : AdsArgs) (d : List (String × IVal)) :
    siFix a (siFix a d) = siFix a d := by
  unfold siFix
  by_cases h : a.auto_dipole
  · simp [h, dictUpdate_idem dipole_dict dipole_pairwise]
  · simp [h]

/-
Characterization of the slab loop.
-/

theorem processSlab_match (ext : ExternalLib) (a : AdsArgs)
    (structure0 : Structure) (si ai : List (String × IVal))
    (fws : List Firework) (slab : Slab)
    (hk : (keysOf a).contains (millerString slab.millerIndex) = true) :
    processSlab ext a structure0 (si, ai, fws) slab =
      (siFix a si, siFix a ai,
        fws ++ slabFwOf ext a structure0 (siFix a si) slab ::
          adsFwsOf ext a structure0 (siFix a ai) slab) := by
  have hk2 : millerString slab.millerIndex ∈ keysOf a := by simpa using hk
  simp [processSlab, hk2, siFix]

theorem processSlab_nomatch (ext : ExternalLib) (a : AdsArgs)
    (structure0 : Structure) (si ai : List (String × IVal))
    (fws : List Firework) (slab : Slab)
    (hk : ¬ (keysOf a).contains (millerString slab.millerIndex) = true) :
    processSlab ext a structure0 (si, ai, fws) slab = (si, ai, fws) := by
  have hk2 : millerString slab.millerIndex ∉ keysOf a := by simpa using hk
  simp [processSlab, hk2]

theorem slabJobsOf_pos (ext : ExternalLib) (a : AdsArgs)
    (structure0 : Structure) (siF aiF : List (String × IVal)) (slab : Slab)
    (hk : (keysOf a).contains (millerString slab.millerIndex) = true) :
    slabJobsOf ext a structure0 siF aiF slab =
      slabFwOf ext a structure0 siF slab ::
        adsFwsOf ext a structure0 aiF slab := by
  have hk2 : millerString slab.millerIndex ∈ keysOf a := by simpa using hk
  simp [slabJobsOf, hk2]

theorem slabJobsOf_neg (ext : ExternalLib) (a : AdsArgs)
    (structure0 : Structure) (siF aiF : List (String × IVal)) (slab : Slab)
    (hk : ¬ (keysOf a).contains (millerString slab.millerIndex) = true) :
    slabJobsOf ext a structure0 siF aiF slab = [] := by
  have hk2 : millerString slab.millerIndex ∉ keysOf a := by simpa using hk
  simp [slabJobsOf, hk2]

theorem foldl_processSlab_fws (ext : ExternalLib) (a : AdsArgs)
    (structure0 : Structure) (si0 ai0 : List (String × IVal))
    (slabs : List Slab) :
    ∀ (si ai : List (String × IVal)) (fws : List Firework),
      (si = si0 ∨ si = siFix a si0) → (ai = ai0 ∨ ai = siFix a ai0) →
      (slabs.foldl (processSlab ext a structure0) (si, ai, fws)).2.2 =
        fws ++ slabs.flatMap
          (slabJobsOf ext a structure0 (siFix a si0) (siFix a ai0)) := by
  induction slabs with
  | nil => intro si ai fws hsi hai; simp
  | cons slab slabs ih =>
    intro si ai fws hsi hai
    have hsiF : siFix a si = siFix a si0 := by
      rcases hsi with h | h
      · rw [h]
      · rw [h, siFix_idem]
    have haiF : siFix a ai = siFix a ai0 := by
      rcases hai with h | h
      · rw [h]
      · rw [h, siFix_idem]
    rw [List.foldl_cons, List.flatMap_cons]
    by_cases hk : (keysOf a).contains (millerString slab.millerIndex) = true
    · rw [processSlab_match ext a structure0 si ai fws slab hk, hsiF, haiF,
        ih (siFix a si0) (siFix a ai0) _ (Or.inr rfl) (Or.inr rfl),
        slabJobsOf_pos ext a structure0 _ _ slab hk]
      simp
    · rw [processSlab_nomatch ext a structure0 si ai fws slab hk,
        ih si ai fws hsi hai, slabJobsOf_neg ext a structure0 _ _ slab hk]
      simp

theorem adsWithSlabs_ok (ext : ExternalLib) (st : PyState) (a : AdsArgs)
    (slabs : List Slab)
    (hall : ((keysOf a).all fun k => (miStringsOf slabs).contains k) = true) :
    (adsWithSlabs ext st a slabs).2.1 = adsTraceOf ext st a slabs ∧
    (adsWithSlabs ext st a slabs).2.2 =
      Except.ok (Workflow.mk (adsTraceOf ext st a slabs)
        (ext.reducedFormula (normStructure ext a) ++ ":" ++
          "Adsorbate calculations")) := by
  have hfold := foldl_processSlab_fws ext a (normStructure ext a)
    (slabIncar1 ext st a) (adsIncar1 ext st a) slabs
    (slabIncar1 ext st a) (adsIncar1 ext st a) [bulkFwOf ext a]
    (Or.inl rfl) (Or.inl rfl)
  simp only [adsWithSlabs, hall, if_true, adsTraceOf]
  rw [hfold]
  simp

theorem adsWithSlabs_err (ext : ExternalLib) (st : PyState) (a : AdsArgs)
    (slabs : List Slab)
    (hall : ¬ ((keysOf a).all fun k => (miStringsOf slabs).contains k) = true) :
    (adsWithSlabs ext st a slabs).2.1 = [bulkFwOf ext a] ∧
    (adsWithSlabs ext st a slabs).2.2 =
      Except.error (WfError.millerNotInList (miStringsOf slabs)) := by
  have hall2 : ¬ ∀ x ∈ keysOf a, x ∈ miStringsOf slabs := by simpa using hall
  simp [adsWithSlabs, hall2]

theorem get_wf_ok_inv (ext : ExternalLib) (st : PyState) (a : AdsArgs)
    (wf : Workflow)
    (h : (get_wf_adsorption ext st a).2.2 = Except.ok wf) :
    ∃ m, maxIndexOf a.adsorbate_config = Except.ok m ∧
      ((keysOf a).all fun k =>
        (miStringsOf (slabsOf ext a m)).contains k) = true ∧
      wf.fws = adsTraceOf ext st a (slabsOf ext a m) := by
  unfold get_wf_adsorption at h
  cases hm : maxIndexOf a.adsorbate_config with
  | error e => rw [hm] at h; simp at h
  | ok m =>
    rw [hm] at h
    by_cases hall : ((keysOf a).all fun k =>
        (miStringsOf (slabsOf ext a m)).contains k) = true
    · refine ⟨m, rfl, hall, ?_⟩
      have h2 := (adsWithSlabs_ok ext st a (slabsOf ext a m) hall).2
      rw [h, Except.ok.injEq] at h2
      rw [h2]
    · have h2 := (adsWithSlabs_err ext st a (slabsOf ext a m) hall).2
      rw [h] at h2
      simp at h2

/-
Shape of the individual jobs.
-/

theorem mem_adsFwsOf (ext : ExternalLib) (a : AdsArgs) (structure0 : Structure)
    (aiF : List (String × IVal)) (slab : Slab) (fw : Firework)
    (h : fw ∈ adsFwsOf ext a structure0 aiF slab) :
    ∃ molecule ∈ (lookupKey a.adsorbate_config (millerString slab.millerIndex)).getD [],
      ∃ cand ∈ ext.genAdsorptionStructures slab molecule,
        fw = adsFwOf ext a structure0 aiF slab (millerString slab.millerIndex)
          molecule cand := by
  unfold adsFwsOf at h
  simp only [List.mem_flatMap, List.mem_map] at h
  obtain ⟨molecule, hmol, cand, hcand, hfw⟩ := h
  exact ⟨molecule, hmol, cand, hcand, hfw.symm⟩

theorem mem_slabJobsOf (ext : ExternalLib) (a : AdsArgs) (structure0 : Structure)
    (siF aiF : List (String × IVal)) (slab : Slab) (fw : Firework)
    (h : fw ∈ slabJobsOf ext a structure0 siF aiF slab) :
    fw = slabFwOf ext a structure0 siF slab ∨
      fw ∈ adsFwsOf ext a structure0 aiF slab := by
  unfold slabJobsOf at h
  split at h
  · exact List.mem_cons.mp h
  · simp at h

theorem mem_slabJobsOf_parents (ext : ExternalLib) (a : AdsArgs)
    (structure0 : Structure) (siF aiF : List (String × IVal)) (slab : Slab)
    (fw : Firework) (h : fw ∈ slabJobsOf ext a structure0 siF aiF slab) :
    fw.parents = [0] := by
  rcases mem_slabJobsOf ext a structure0 siF aiF slab fw h with h | h
  · rw [h]; rfl
  · obtain ⟨molecule, _, cand, _, hfw⟩ :=
      mem_adsFwsOf ext a structure0 aiF slab fw h
    rw [hfw]; rfl

/-- Claim C2: for every valid input the returned workflow has exactly one
parentless job, namely the bulk relaxation job created first; every other job
lists the bulk job (index 0) as its parent. -/
theorem bulk_is_unique_root (ext : ExternalLib) (st : PyState) (a : AdsArgs)
    (wf : Workflow) (h : (get_wf_adsorption ext st a).2.2 = Except.ok wf) :
    wf.fws.head? = some (bulkFwOf ext a) ∧
    (bulkFwOf ext a).parents = [] ∧
    (∀ fw ∈ wf.fws.tail, fw.parents = [0]) ∧
    wf.fws.countP (fun fw => fw.parents.isEmpty) = 1 := by
  obtain ⟨m, hm, hall, hfws⟩ := get_wf_ok_inv ext st a wf h
  rw [hfws]
  unfold adsTraceOf
  refine ⟨rfl, rfl, ?_, ?_⟩
  · intro fw hfw
    rw [List.tail_cons] at hfw
    obtain ⟨slab, hslab, hjob⟩ := List.mem_flatMap.mp hfw
    exact mem_slabJobsOf_parents ext a _ _ _ slab fw hjob
  · rw [List.countP_cons]
    have h0 : ((slabsOf ext a m).flatMap (slabJobsOf ext a (normStructure ext a)
        (siFix a (slabIncar1 ext st a)) (siFix a (adsIncar1 ext st a)))).countP
        (fun fw => fw.parents.isEmpty) = 0 := by
      rw [List.countP_eq_zero]
      intro fw hfw
      obtain ⟨slab, hslab, hjob⟩ := List.mem_flatMap.mp hfw
      rw [mem_slabJobsOf_parents ext a _ _ _ slab fw hjob]
      decide
    rw [h0]
    rfl

/-- Witness for bulk_is_unique_root: the concrete valid call with one slab,
one molecule and one candidate structure. -/
theorem bulk_is_unique_root_witness :
    wfOk.fws.head? = some (bulkFwOf ext0 args0) ∧
    (bulkFwOf ext0 args0).parents = [] ∧
    (∀ fw ∈ wfOk.fws.tail, fw.parents = [0]) ∧
    wfOk.fws.countP (fun fw => fw.parents.isEmpty) = 1 :=
  bulk_is_unique_root ext0 PyState.init args0 wfOk rfl

/-- Claim C1 (amended): with a requested key matching no generated slab, the
call raises the ValueError carrying exactly the generated Miller-index
strings, returns no workflow, and has created only the bulk job descriptor
(no slab or adsorbate job) when it raises. -/
theorem invalid_key_fails_before_slab_jobs (ext : ExternalLib) (st : PyState)
    (a : AdsArgs) (m : ℤ) (hm : maxIndexOf a.adsorbate_config = Except.ok m)
    (hbad : ∃ k ∈ keysOf a, k ∉ miStringsOf (slabsOf ext a m)) :
    (get_wf_adsorption ext st a).2.2 =
      Except.error (WfError.millerNotInList (miStringsOf (slabsOf ext a m))) ∧
    (get_wf_adsorption ext st a).2.1 = [bulkFwOf ext a] := by
  have hall : ¬ ((keysOf a).all fun k =>
      (miStringsOf (slabsOf ext a m)).contains k) = true := by
    obtain ⟨k, hk, hnot⟩ := hbad
    simp only [List.all_eq_true]
    intro hc
    exact hnot (by simpa using hc k hk)
  unfold get_wf_adsorption
  rw [hm]
  exact ⟨(adsWithSlabs_err ext st a _ hall).2, (adsWithSlabs_err ext st a _ hall).1⟩

/-- Witness for invalid_key_fails_before_slab_jobs: requesting "222" when only
the (111) slab is generated. -/
theorem invalid_key_fails_before_slab_jobs_witness :
    (get_wf_adsorption ext0 PyState.init argsBad).2.2 =
      Except.error (WfError.millerNotInList (miStringsOf (slabsOf ext0 argsBad 2))) ∧
    (get_wf_adsorption ext0 PyState.init argsBad).2.1 = [bulkFwOf ext0 argsBad] :=
  invalid_key_fails_before_slab_jobs ext0 PyState.init argsBad 2 rfl
    ⟨"222", by decide, by decide⟩

/-- Claim C1 (counterexample): on the invalid concrete call the error carries
exactly the generated Miller-index strings and no workflow is returned, but
one job descriptor (the bulk relaxation job, source line 118) has already been
created when the ValueError is raised, refuting "fails before any job is
created". -/
theorem invalid_key_bulk_job_already_created :
    (get_wf_adsorption ext0 PyState.init argsBad).2.2 =
      Except.error (WfError.millerNotInList ["111"]) ∧
    (get_wf_adsorption ext0 PyState.init argsBad).2.1.length = 1 :=
  ⟨rfl, rfl⟩

/-- Claim C10: with an empty adsorbate configuration the call raises the
empty-max ValueError instead of returning a bulk-only workflow, and a workflow
is returned only when the configuration has at least one key. -/
theorem empty_config_raises (ext : ExternalLib) (st : PyState) (a : AdsArgs) :
    (a.adsorbate_config = [] →
      (get_wf_adsorption ext st a).2.2 = Except.error WfError.emptyMax) ∧
    (∀ wf, (get_wf_adsorption ext st a).2.2 = Except.ok wf →
      a.adsorbate_config ≠ []) := by
  constructor
  · intro h0
    unfold get_wf_adsorption
    have hmx : maxIndexOf a.adsorbate_config = Except.error WfError.emptyMax := by
      rw [h0]; rfl
    rw [hmx]
  · intro wf h h0
    obtain ⟨m, hm, _, _⟩ := get_wf_ok_inv ext st a wf h
    rw [h0] at hm
    exact Except.noConfusion hm

/-- Witness for empty_config_raises: the concrete empty-configuration call. -/
theorem empty_config_raises_witness :
    (get_wf_adsorption ext0 PyState.init argsEmpty).2.2 =
      Except.error WfError.emptyMax :=
  (empty_config_raises ext0 PyState.init argsEmpty).1 rfl

/-- Claim C3 (code bug): the default INCAR-override dictionaries are shared
mutable state across calls.  A call that uses the defaults mutates them even
when it raises (the LDAU write at source lines 115-116 precedes the raise), and
a later call with identical arguments then returns a different workflow than
the same call on a fresh interpreter: its slab job records the LDAU setting
left behind by the earlier call. -/
theorem default_incar_dicts_shared_across_calls :
    (get_wf_adsorption ext0 PyState.init argsEmpty).1 ≠ PyState.init ∧
    (get_wf_adsorption ext0 (get_wf_adsorption ext0 PyState.init argsEmpty).1
        argsB).2.2 ≠ (get_wf_adsorption ext0 PyState.init argsB).2.2 := by
  constructor
  · intro h
    exact Nat.succ_ne_zero 0 (congrArg (fun s => s.slabIncarDefault.length) h)
  · intro h
    have hne : some [(0 : Nat), 1] ≠ some [(0 : Nat), 0] := by decide
    exact hne (congrArg (fun r => r.toOption.map (fun wf =>
      wf.fws.map (fun fw => fw.vaspInputSet.userIncarSettings.length))) h)

/-- Claim C4 (counterexample): with `center_slab=False` the slab job's
transformation still carries `center_slab=True` (hardcoded at source line
151), not the caller's flag. -/
theorem center_slab_flag_hardcoded :
    args4.center_slab = false ∧
    ((get_wf_adsorption ext0 PyState.init args4).2.1[1]?.bind fwSlabCenterFlag) =
      some true :=
  ⟨rfl, rfl⟩

/-
Counting lemmas.
-/

theorem countP_flatMap {α β : Type} (l : List α) (f : α → List β)
    (p : β → Bool) :
    (l.flatMap f).countP p = (l.map (fun x => (f x).countP p)).sum := by
  induction l with
  | nil => rfl
  | cons x l ih =>
    rw [List.flatMap_cons, List.countP_append, ih, List.map_cons, List.sum_cons]

theorem sum_map_if {α : Type} (l : List α) (q : α → Bool) (g : α → ℕ) :
    (l.map (fun x => if q x = true then g x else 0)).sum =
      ((l.filter q).map g).sum := by
  induction l with
  | nil => rfl
  | cons x l ih =>
    by_cases hx : q x = true
    · simp [hx, ih]
    · simp [hx, ih]

theorem sum_map_one {α : Type} (l : List α) :
    (l.map (fun _ => (1 : ℕ))).sum = l.length := by
  induction l with
  | nil => rfl
  | cons x l ih => simp [ih, Nat.add_comm]

theorem adsFwsOf_length (ext : ExternalLib) (a : AdsArgs)
    (structure0 : Structure) (aiF : List (String × IVal)) (slab : Slab) :
    (adsFwsOf ext a structure0 aiF slab).length =
      (((lookupKey a.adsorbate_config (millerString slab.millerIndex)).getD []).map
        (fun molecule => (ext.genAdsorptionStructures slab molecule).length)).sum := by
  unfold adsFwsOf
  rw [List.length_flatMap]
  refine congrArg List.sum (List.map_congr_left ?_)
  intro molecule _
  simp [Function.comp]

theorem countP_adsFwsOf_ads (ext : ExternalLib) (a : AdsArgs)
    (structure0 : Structure) (aiF : List (String × IVal)) (slab : Slab) :
    (adsFwsOf ext a structure0 aiF slab).countP
      (fun fw => fw.transformations == adsTransChain) =
      (adsFwsOf ext a structure0 aiF slab).length := by
  rw [List.countP_eq_length]
  intro fw hfw
  obtain ⟨molecule, _, cand, _, hfw⟩ :=
    mem_adsFwsOf ext a structure0 aiF slab fw hfw
  rw [hfw]
  exact beq_self_eq_true adsTransChain

theorem countP_slabJobsOf_ads (ext : ExternalLib) (a : AdsArgs)
    (structure0 : Structure) (siF aiF : List (String × IVal)) (slab : Slab) :
    (slabJobsOf ext a structure0 siF aiF slab).countP
      (fun fw => fw.transformations == adsTransChain) =
      if (keysOf a).contains (millerString slab.millerIndex) = true then
        (adsFwsOf ext a structure0 aiF slab).length
      else 0 := by
  by_cases hk : (keysOf a).contains (millerString slab.millerIndex) = true
  · rw [slabJobsOf_pos ext a structure0 siF aiF slab hk, if_pos hk,
      List.countP_cons, countP_adsFwsOf_ads]
    have hfalse : ((slabFwOf ext a structure0 siF slab).transformations ==
      adsTransChain) = false := rfl
    rw [hfalse, if_neg Bool.false_ne_true, Nat.add_zero]
  · rw [slabJobsOf_neg ext a structure0 siF aiF slab hk, if_neg hk]
    rfl

theorem countP_slabJobsOf_slab (ext : ExternalLib) (a : AdsArgs)
    (structure0 : Structure) (siF aiF : List (String × IVal)) (slab : Slab) :
    (slabJobsOf ext a structure0 siF aiF slab).countP
      (fun fw => fw.transformations == ["SlabTransformation"]) =
      if (keysOf a).contains (millerString slab.millerIndex) = true then 1
      else 0 := by
  by_cases hk : (keysOf a).contains (millerString slab.millerIndex) = true
  · rw [slabJobsOf_pos ext a structure0 siF aiF slab hk, if_pos hk,
      List.countP_cons]
    have h0 : (adsFwsOf ext a structure0 aiF slab).countP
        (fun fw => fw.transformations == ["SlabTransformation"]) = 0 := by
      rw [List.countP_eq_zero]
      intro fw hfw
      obtain ⟨molecule, _, cand, _, hfw⟩ :=
        mem_adsFwsOf ext a structure0 aiF slab fw hfw
      rw [hfw]
      have ht : (adsFwOf ext a structure0 aiF slab
          (millerString slab.millerIndex) molecule cand).transformations =
          adsTransChain := rfl
      rw [ht]
      decide
    rw [h0]
    have htrue : ((slabFwOf ext a structure0 siF slab).transformations ==
      ["SlabTransformation"]) = true := rfl
    rw [htrue, if_pos rfl]
  · rw [slabJobsOf_neg ext a structure0 siF aiF slab hk, if_neg hk]
    rfl

/-- Claim C7: the number of adsorbate jobs in the returned workflow equals the
number of candidate structures generated, summed over all requested molecules
and all matching slabs. -/
theorem adsorbate_job_count (ext : ExternalLib) (st : PyState) (a : AdsArgs)
    (wf : Workflow) (h : (get_wf_adsorption ext st a).2.2 = Except.ok wf)
    (m : ℤ) (hm : maxIndexOf a.adsorbate_config = Except.ok m) :
    wf.fws.countP (fun fw => fw.transformations == adsTransChain) =
      (((slabsOf ext a m).filter (fun slab =>
          (keysOf a).contains (millerString slab.millerIndex))).map (fun slab =>
        (((lookupKey a.adsorbate_config (millerString slab.millerIndex)).getD []).map
          (fun molecule =>
            (ext.genAdsorptionStructures slab molecule).length)).sum)).sum := by
  obtain ⟨m2, hm2, hall, hfws⟩ := get_wf_ok_inv ext st a wf h
  rw [hm2, Except.ok.injEq] at hm
  subst hm
  rw [hfws]
  unfold adsTraceOf
  rw [List.countP_cons]
  have hb : ((bulkFwOf ext a).transformations == adsTransChain) = false := rfl
  rw [hb, if_neg Bool.false_ne_true, Nat.add_zero,
    countP_flatMap (slabsOf ext a m2)
      (slabJobsOf ext a (normStructure ext a) (siFix a (slabIncar1 ext st a))
        (siFix a (adsIncar1 ext st a)))
      (fun fw => fw.transformations == adsTransChain)]
  have hmap : (slabsOf ext a m2).map (fun slab =>
      (slabJobsOf ext a (normStructure ext a) (siFix a (slabIncar1 ext st a))
        (siFix a (adsIncar1 ext st a)) slab).countP
        (fun fw => fw.transformations == adsTransChain)) =
      (slabsOf ext a m2).map (fun slab =>
        if (keysOf a).contains (millerString slab.millerIndex) = true then
          (adsFwsOf ext a (normStructure ext a)
            (siFix a (adsIncar1 ext st a)) slab).length
        else 0) := by
    exact List.map_congr_left (fun slab _ => countP_slabJobsOf_ads ext a _ _ _ slab)
  rw [hmap, sum_map_if]
  exact congrArg List.sum (List.map_congr_left (fun slab _ =>
    adsFwsOf_length ext a (normStructure ext a)
      (siFix a (adsIncar1 ext st a)) slab))

/-- Witness for adsorbate_job_count at the concrete valid call. -/
theorem adsorbate_job_count_witness :
    wfOk.fws.countP (fun fw => fw.transformations == adsTransChain) =
      (((slabsOf ext0 args0 1).filter (fun slab =>
          (keysOf args0).contains (millerString slab.millerIndex))).map (fun slab =>
        (((lookupKey args0.adsorbate_config (millerString slab.millerIndex)).getD []).map
          (fun molecule =>
            (ext0.genAdsorptionStructures slab molecule).length)).sum)).sum :=
  adsorbate_job_count ext0 PyState.init args0 wfOk rfl 1 rfl

/-- Claim C4 (amended): for every matching slab, one slab-relaxation job
parented to the bulk job is built; its transformation list is the single slab
cut parameterized by the slab's Miller index, the caller's slab and vacuum
sizes, the slab's shift, the caller's max_normal_search, and the centering
flag fixed to True (regardless of the caller's center_slab argument). -/
theorem slab_job_transformation_params (ext : ExternalLib) (st : PyState)
    (a : AdsArgs) (wf : Workflow)
    (h : (get_wf_adsorption ext st a).2.2 = Except.ok wf) (m : ℤ)
    (hm : maxIndexOf a.adsorbate_config = Except.ok m) (slab : Slab)
    (hs : slab ∈ slabsOf ext a m)
    (hk : (keysOf a).contains (millerString slab.millerIndex) = true) :
    slabFwOf ext a (normStructure ext a) (siFix a (slabIncar1 ext st a)) slab ∈
      wf.fws ∧
    (slabFwOf ext a (normStructure ext a) (siFix a (slabIncar1 ext st a))
      slab).transformations = ["SlabTransformation"] ∧
    (slabFwOf ext a (normStructure ext a) (siFix a (slabIncar1 ext st a))
      slab).transformationParams =
      [TransParams.slab
        { miller_index := slab.millerIndex,
          min_slab_size := a.min_slab_size,
          min_vacuum_size := a.min_vacuum_size,
          shift := slab.shift,
          center_slab := true,
          max_normal_search := a.max_normal_search }] ∧
    (slabFwOf ext a (normStructure ext a) (siFix a (slabIncar1 ext st a))
      slab).parents = [0] ∧
    wf.fws.countP (fun fw => fw.transformations == ["SlabTransformation"]) =
      ((slabsOf ext a m).filter (fun s =>
        (keysOf a).contains (millerString s.millerIndex))).length := by
  obtain ⟨m2, hm2, hall, hfws⟩ := get_wf_ok_inv ext st a wf h
  rw [hm2, Except.ok.injEq] at hm
  subst hm
  refine ⟨?_, rfl, rfl, rfl, ?_⟩
  · rw [hfws]
    unfold adsTraceOf
    apply List.mem_cons_of_mem
    apply List.mem_flatMap.mpr
    refine ⟨slab, hs, ?_⟩
    rw [slabJobsOf_pos ext a _ _ _ slab hk]
    exact List.mem_cons_self _ _
  · rw [hfws]
    unfold adsTraceOf
    rw [List.countP_cons]
    have hb : ((bulkFwOf ext a).transformations == ["SlabTransformation"]) =
      false := rfl
    rw [hb, if_neg Bool.false_ne_true, Nat.add_zero,
      countP_flatMap (slabsOf ext a m2)
        (slabJobsOf ext a (normStructure ext a) (siFix a (slabIncar1 ext st a))
          (siFix a (adsIncar1 ext st a)))
        (fun fw => fw.transformations == ["SlabTransformation"])]
    have hmap : (slabsOf ext a m2).map (fun s =>
        (slabJobsOf ext a (normStructure ext a) (siFix a (slabIncar1 ext st a))
          (siFix a (adsIncar1 ext st a)) s).countP
          (fun fw => fw.transformations == ["SlabTransformation"])) =
        (slabsOf ext a m2).map (fun s =>
          if (keysOf a).contains (millerString s.millerIndex) = true then
            (fun _ : Slab => 1) s
          else 0) :=
      List.map_congr_left (fun s _ => countP_slabJobsOf_slab ext a _ _ _ s)
    rw [hmap, sum_map_if, sum_map_one]

/-- Witness for slab_job_transformation_params at the concrete valid call. -/
theorem slab_job_transformation_params_witness :
    slabFwOf ext0 args0 (normStructure ext0 args0)
      (siFix args0 (slabIncar1 ext0 PyState.init args0)) slab111 ∈ wfOk.fws ∧
    (slabFwOf ext0 args0 (normStructure ext0 args0)
      (siFix args0 (slabIncar1 ext0 PyState.init args0))
      slab111).transformations = ["SlabTransformation"] ∧
    (slabFwOf ext0 args0 (normStructure ext0 args0)
      (siFix args0 (slabIncar1 ext0 PyState.init args0))
      slab111).transformationParams =
      [TransParams.slab
        { miller_index := slab111.millerIndex,
          min_slab_size := args0.min_slab_size,
          min_vacuum_size := args0.min_vacuum_size,
          shift := slab111.shift,
          center_slab := true,
          max_normal_search := args0.max_normal_search }] ∧
    (slabFwOf ext0 args0 (normStructure ext0 args0)
      (siFix args0 (slabIncar1 ext0 PyState.init args0))
      slab111).parents = [0] ∧
    wfOk.fws.countP (fun fw => fw.transformations == ["SlabTransformation"]) =
      ((slabsOf ext0 args0 1).filter (fun s =>
        (keysOf args0).contains (millerString s.millerIndex))).length :=
  slab_job_transformation_params ext0 PyState.init args0 wfOk rfl 1 rfl slab111
    (by decide) (by decide)

/-
Attaching the velocities property does not disturb the adsorbate-site
selection.
-/

theorem zipWith_setProp (sites : List Site) (k : String) (v : PVal) :
    List.zipWith (fun s w => s.setProp k w) sites
      (List.replicate sites.length v) =
      sites.map (fun s => s.setProp k v) := by
  induction sites with
  | nil => rfl
  | cons s sites ih => simp [List.replicate_succ, ih]

theorem addVel_sites (c : CandStructure) :
    (c.addSiteProperty "velocities"
      (List.replicate c.sites.length (PVal.v3 0 0 0))).sites =
      c.sites.map (fun s => s.setProp "velocities" (PVal.v3 0 0 0)) := by
  unfold CandStructure.addSiteProperty
  exact zipWith_setProp c.sites _ _

theorem flag_setProp (s : Site) :
    lookupKey (s.setProp "velocities" (PVal.v3 0 0 0)).props
      "surface_properties" = lookupKey s.props "surface_properties" := by
  unfold Site.setProp
  exact lookupKey_setKey_ne s.props "surface_properties" "velocities" _
    (by decide)

theorem adsSites_addVel_map {γ : Type} (c : CandStructure) (f : Site → γ)
    (hf : ∀ s, f (s.setProp "velocities" (PVal.v3 0 0 0)) = f s) :
    (adsSitesOf (c.addSiteProperty "velocities"
        (List.replicate c.sites.length (PVal.v3 0 0 0)))).map f =
      (adsSitesOf c).map f := by
  unfold adsSitesOf
  rw [addVel_sites, List.filter_map]
  have hps : ∀ s ∈ c.sites,
      ((fun site => lookupKey site.props "surface_properties" ==
          some (PVal.s "adsorbate")) ∘
        (fun s => s.setProp "velocities" (PVal.v3 0 0 0))) s =
      (fun site => lookupKey site.props "surface_properties" ==
        some (PVal.s "adsorbate")) s := by
    intro s _
    show (lookupKey (s.setProp "velocities" (PVal.v3 0 0 0)).props
        "surface_properties" == some (PVal.s "adsorbate")) = _
    rw [flag_setProp]
  rw [List.filter_congr hps, List.map_map]
  exact List.map_congr_left (fun s _ => hf s)

/-- Python round always returns a nearest integer: it is within one half of
its argument. -/
theorem pyRound_nearest (q : ℚ) : |(pyRound q : ℚ) - q| ≤ 1/2 := by
  unfold pyRound
  have h0 : (0 : ℚ) ≤ q - ⌊q⌋ := sub_nonneg.mpr (Int.floor_le q)
  have h1 : q - ⌊q⌋ < 1 := by
    have := Int.lt_floor_add_one q
    linarith
  by_cases hl : q - ⌊q⌋ < 1/2
  · rw [if_pos hl, abs_le]
    constructor <;> linarith
  · rw [if_neg hl]
    by_cases hg : 1/2 < q - ⌊q⌋
    · rw [if_pos hg, abs_le]
      constructor <;> push_cast <;> linarith
    · rw [if_neg hg]
      have he : q - ⌊q⌋ = 1/2 := le_antisymm (not_lt.mp hg) (not_lt.mp hl)
      by_cases hev : ⌊q⌋ % 2 = 0
      · rw [if_pos hev, abs_le]
        constructor <;> linarith
      · rw [if_neg hev, abs_le]
        constructor <;> push_cast <;> linarith

/-- Claim C6: each adsorbate job's transformation list is exactly the 4-step
chain slab cut, supercell scaling, site insertion, site-property restoration,
in that order; the supercell scaling factors are the candidate-to-slab
lattice-parameter quotients rounded to the nearest integer (Python banker
rounding, which always yields a nearest integer); and the insertion step's
species and fractional coordinates are exactly those of the sites flagged
"adsorbate" in the sorted candidate structure. -/
theorem adsorbate_job_transformation_chain (ext : ExternalLib) (st : PyState)
    (a : AdsArgs) (wf : Workflow)
    (h : (get_wf_adsorption ext st a).2.2 = Except.ok wf) (m : ℤ)
    (hm : maxIndexOf a.adsorbate_config = Except.ok m) (slab : Slab)
    (hs : slab ∈ slabsOf ext a m)
    (hk : (keysOf a).contains (millerString slab.millerIndex) = true)
    (molecule : Molecule)
    (hmol : molecule ∈
      (lookupKey a.adsorbate_config (millerString slab.millerIndex)).getD [])
    (cand : CandStructure)
    (hcand : cand ∈ ext.genAdsorptionStructures slab molecule) :
    adsFwOf ext a (normStructure ext a) (siFix a (adsIncar1 ext st a)) slab
      (millerString slab.millerIndex) molecule cand ∈ wf.fws ∧
    (adsFwOf ext a (normStructure ext a) (siFix a (adsIncar1 ext st a)) slab
      (millerString slab.millerIndex) molecule cand).transformations =
      ["SlabTransformation", "SupercellTransformation",
       "InsertSitesTransformation", "AddSitePropertyTransformation"] ∧
    (adsFwOf ext a (normStructure ext a) (siFix a (adsIncar1 ext st a)) slab
      (millerString slab.millerIndex) molecule cand).transformationParams =
      [TransParams.slab (slabTransParamsOf a slab),
       TransParams.supercell
         [[pyRound ((sortedWithVel ext cand).latticeA / slab.latticeA), 0, 0],
          [0, pyRound ((sortedWithVel ext cand).latticeB / slab.latticeB), 0],
          [0, 0, 1]],
       TransParams.insertSites
         ((adsSitesOf (sortedWithVel ext cand)).map
           (fun site => site.speciesString))
         ((adsSitesOf (sortedWithVel ext cand)).map
           (fun site => site.fracCoords)),
       TransParams.siteProps (sortedWithVel ext cand).siteProperties] ∧
    (adsSitesOf (sortedWithVel ext cand)).map (fun site => site.speciesString) =
      (adsSitesOf (ext.getSorted cand)).map (fun site => site.speciesString) ∧
    (adsSitesOf (sortedWithVel ext cand)).map (fun site => site.fracCoords) =
      (adsSitesOf (ext.getSorted cand)).map (fun site => site.fracCoords) ∧
    (∀ q : ℚ, |(pyRound q : ℚ) - q| ≤ 1/2) ∧
    (adsFwOf ext a (normStructure ext a) (siFix a (adsIncar1 ext st a)) slab
      (millerString slab.millerIndex) molecule cand).parents = [0] := by
  obtain ⟨m2, hm2, hall, hfws⟩ := get_wf_ok_inv ext st a wf h
  rw [hm2, Except.ok.injEq] at hm
  subst hm
  refine ⟨?_, rfl, rfl, ?_, ?_, pyRound_nearest, rfl⟩
  · rw [hfws]
    unfold adsTraceOf
    apply List.mem_cons_of_mem
    apply List.mem_flatMap.mpr
    refine ⟨slab, hs, ?_⟩
    rw [slabJobsOf_pos ext a _ _ _ slab hk]
    apply List.mem_cons_of_mem
    unfold adsFwsOf
    exact List.mem_flatMap.mpr ⟨molecule, hmol,
      List.mem_map.mpr ⟨cand, hcand, rfl⟩⟩
  · exact adsSites_addVel_map (ext.getSorted cand) _ (fun s => rfl)
  · exact adsSites_addVel_map (ext.getSorted cand) _ (fun s => rfl)

/-- Witness for adsorbate_job_transformation_chain at the concrete valid
call. -/
theorem adsorbate_job_transformation_chain_witness :
    adsFwOf ext0 args0 (normStructure ext0 args0)
      (siFix args0 (adsIncar1 ext0 PyState.init args0)) slab111
      (millerString slab111.millerIndex) mol0 cand0 ∈ wfOk.fws ∧
    (adsFwOf ext0 args0 (normStructure ext0 args0)
      (siFix args0 (adsIncar1 ext0 PyState.init args0)) slab111
      (millerString slab111.millerIndex) mol0 cand0).transformations =
      ["SlabTransformation", "SupercellTransformation",
       "InsertSitesTransformation", "AddSitePropertyTransformation"] ∧
    (adsFwOf ext0 args0 (normStructure ext0 args0)
      (siFix args0 (adsIncar1 ext0 PyState.init args0)) slab111
      (millerString slab111.millerIndex) mol0 cand0).transformationParams =
      [TransParams.slab (slabTransParamsOf args0 slab111),
       TransParams.supercell
         [[pyRound ((sortedWithVel ext0 cand0).latticeA / slab111.latticeA), 0, 0],
          [0, pyRound ((sortedWithVel ext0 cand0).latticeB / slab111.latticeB), 0],
          [0, 0, 1]],
       TransParams.insertSites
         ((adsSitesOf (sortedWithVel ext0 cand0)).map
           (fun site => site.speciesString))
         ((adsSitesOf (sortedWithVel ext0 cand0)).map
           (fun site => site.fracCoords)),
       TransParams.siteProps (sortedWithVel ext0 cand0).siteProperties] ∧
    (adsSitesOf (sortedWithVel ext0 cand0)).map (fun site => site.speciesString) =
      (adsSitesOf (ext0.getSorted cand0)).map (fun site => site.speciesString) ∧
    (adsSitesOf (sortedWithVel ext0 cand0)).map (fun site => site.fracCoords) =
      (adsSitesOf (ext0.getSorted cand0)).map (fun site => site.fracCoords) ∧
    (∀ q : ℚ, |(pyRound q : ℚ) - q| ≤ 1/2) ∧
    (adsFwOf ext0 args0 (normStructure ext0 args0)
      (siFix args0 (adsIncar1 ext0 PyState.init args0)) slab111
      (millerString slab111.millerIndex) mol0 cand0).parents = [0] :=
  adsorbate_job_transformation_chain ext0 PyState.init args0 wfOk rfl 1 rfl
    slab111 (List.mem_singleton.mpr rfl) (by decide) mol0
    (List.mem_singleton.mpr rfl) cand0 (List.mem_singleton.mpr rfl)

/-
The max_index computation.
-/

theorem parseDigits_ok (l : List Char) (h : ∀ c ∈ l, c.isDigit = true) :
    parseDigits l = Except.ok (l.map (fun c => ((c.toNat : ℤ) - 48))) := by
  induction l with
  | nil => rfl
  | cons c cs ih =>
    have hc : charToInt? c = some ((c.toNat : ℤ) - 48) := by
      unfold charToInt?
      rw [if_pos (h c (List.mem_cons_self c cs))]
    simp only [parseDigits, hc, ih (fun x hx => h x (List.mem_cons_of_mem c hx)),
      Except.map, List.map_cons]

theorem string_join_toList (l : List String) :
    (String.join l).toList = (l.map String.toList).flatten := by
  rw [String.join_eq]
  rfl

theorem toList_ne_nil (s : String) (h : s ≠ "") : s.toList ≠ [] := by
  intro hnil
  apply h
  cases s with
  | mk data =>
    simp only [String.toList] at hnil
    rw [hnil]

/-- Claim C5: for configurations whose keys are non-empty decimal-digit
strings, max_index is computed as the maximum single digit appearing across
the concatenation of all requested keys, and exactly that value is passed to
slab enumeration. -/
theorem max_index_is_max_digit (ext : ExternalLib) (st : PyState) (a : AdsArgs)
    (h1 : a.adsorbate_config ≠ [])
    (h2 : ∀ k ∈ keysOf a, k ≠ "" ∧ ∀ c ∈ k.toList, c.isDigit = true) :
    (specMaxDigit a.adsorbate_config).isSome = true ∧
    maxIndexOf a.adsorbate_config =
      Except.ok ((specMaxDigit a.adsorbate_config).getD 0) ∧
    get_wf_adsorption ext st a =
      adsWithSlabs ext st a
        (slabsOf ext a ((specMaxDigit a.adsorbate_config).getD 0)) := by
  have hdig : ∀ c ∈ (String.join (a.adsorbate_config.map Prod.fst)).toList,
      c.isDigit = true := by
    intro c hc
    rw [string_join_toList] at hc
    obtain ⟨piece, hp, hcp⟩ := List.mem_flatten.mp hc
    obtain ⟨k, hk, hke⟩ := List.mem_map.mp hp
    exact (h2 k hk).2 c (hke ▸ hcp)
  have hne : (String.join (a.adsorbate_config.map Prod.fst)).toList ≠ [] := by
    obtain ⟨p, rest, hcfg⟩ := List.exists_cons_of_ne_nil h1
    rw [string_join_toList, hcfg]
    simp only [List.map_cons, List.flatten_cons]
    refine List.append_ne_nil_of_left_ne_nil (toList_ne_nil p.1 (h2 p.1 ?_).1) _
    unfold keysOf
    rw [hcfg]
    exact List.mem_map_of_mem Prod.fst (List.mem_cons_self _ _)
  obtain ⟨c, cs, hcc⟩ := List.exists_cons_of_ne_nil hne
  have hparse := parseDigits_ok _ hdig
  have hspec : specMaxDigit a.adsorbate_config =
      some ((cs.map (fun x => ((x.toNat : ℤ) - 48))).foldl max
        ((c.toNat : ℤ) - 48)) := by
    unfold specMaxDigit
    rw [hcc]
    rfl
  have hmax : maxIndexOf a.adsorbate_config =
      Except.ok ((cs.map (fun x => ((x.toNat : ℤ) - 48))).foldl max
        ((c.toNat : ℤ) - 48)) := by
    unfold maxIndexOf
    rw [hparse, hcc]
    rfl
  refine ⟨by rw [hspec]; rfl, by rw [hmax, hspec]; rfl, ?_⟩
  unfold get_wf_adsorption
  rw [hmax, hspec]
  rfl

/-- Witness for max_index_is_max_digit: the concrete valid call with key
"111". -/
theorem max_index_is_max_digit_witness :
    (specMaxDigit args0.adsorbate_config).isSome = true ∧
    maxIndexOf args0.adsorbate_config =
      Except.ok ((specMaxDigit args0.adsorbate_config).getD 0) ∧
    get_wf_adsorption ext0 PyState.init args0 =
      adsWithSlabs ext0 PyState.init args0
        (slabsOf ext0 args0 ((specMaxDigit args0.adsorbate_config).getD 0)) :=
  max_index_is_max_digit ext0 PyState.init args0 (List.cons_ne_nil _ _)
    (by decide)

/-
The molecule-reference workflow.
-/

theorem sum_map_add_list (l : List ℚ) (d : ℚ) :
    (l.map (fun x => x + d)).sum = l.sum + l.length * d := by
  induction l with
  | nil => simp
  | cons x l ih =>
    simp only [List.map_cons, List.sum_cons, ih, List.length_cons]
    push_cast
    ring

theorem fracCentroid_translate (s : Structure) (d : ℚ × ℚ × ℚ)
    (h : s.sites ≠ []) :
    fracCentroid (translateSites s d) =
      ((fracCentroid s).1 + d.1, (fracCentroid s).2.1 + d.2.1,
        (fracCentroid s).2.2 + d.2.2) := by
  have hn : ((s.sites.length : ℚ)) ≠ 0 :=
    Nat.cast_ne_zero.mpr (fun h0 => h (List.length_eq_zero.mp h0))
  have hx : ((translateSites s d).sites.map (fun t => t.fracCoords.1)) =
      (s.sites.map (fun t => t.fracCoords.1)).map (fun x => x + d.1) := by
    unfold translateSites
    simp [Function.comp]
  have hy : ((translateSites s d).sites.map (fun t => t.fracCoords.2.1)) =
      (s.sites.map (fun t => t.fracCoords.2.1)).map (fun x => x + d.2.1) := by
    unfold translateSites
    simp [Function.comp]
  have hz : ((translateSites s d).sites.map (fun t => t.fracCoords.2.2)) =
      (s.sites.map (fun t => t.fracCoords.2.2)).map (fun x => x + d.2.2) := by
    unfold translateSites
    simp [Function.comp]
  have hlen : (translateSites s d).sites.length = s.sites.length := by
    unfold translateSites
    simp
  unfold fracCentroid
  rw [hx, hy, hz, hlen, sum_map_add_list, sum_map_add_list, sum_map_add_list,
    List.length_map, List.length_map, List.length_map]
  simp only [Prod.mk.injEq]
  refine ⟨?_, ?_, ?_⟩ <;> rw [add_div, mul_div_cancel_left₀ _ hn]

/-- Claim C8: every molecule-reference job's structure sits in a cubic cell of
edge min_vacuum_size and, after the centering translation, its fractional
centroid is exactly (1/2, 1/2, 1/2) (exact rational arithmetic, hence within
any numerical tolerance). -/
theorem molecule_centered_in_cubic_cell (ext : ExternalLib) (a : MolArgs)
    (fw : Firework) (hfw : fw ∈ (get_wf_molecules ext a).fws) :
    fw.struct.latticeA = a.min_vacuum_size ∧
    fw.struct.latticeB = a.min_vacuum_size ∧
    fw.struct.latticeC = a.min_vacuum_size ∧
    (fw.struct.sites ≠ [] → fracCentroid fw.struct = (1/2, 1/2, 1/2)) := by
  obtain ⟨p, hp, hfw⟩ := List.mem_map.mp hfw
  rw [← hfw]
  refine ⟨rfl, rfl, rfl, ?_⟩
  intro hne
  have hstruct : (molFwOf ext a p).struct =
      translateSites (moleculeBoxStructure a.min_vacuum_size p.1)
        (centerShift (moleculeBoxStructure a.min_vacuum_size p.1)) := rfl
  rw [hstruct] at hne ⊢
  have hne0 : (moleculeBoxStructure a.min_vacuum_size p.1).sites ≠ [] := by
    intro h0
    apply hne
    unfold translateSites
    rw [h0]
    rfl
  rw [fracCentroid_translate _ _ hne0]
  unfold centerShift
  simp only [Prod.mk.injEq]
  refine ⟨by ring, by ring, by ring⟩

/-- Witness for molecule_centered_in_cubic_cell at the concrete two-atom
molecule. -/
theorem molecule_centered_in_cubic_cell_witness :
    fwMol0.struct.latticeA = molArgs0.min_vacuum_size ∧
    fwMol0.struct.latticeB = molArgs0.min_vacuum_size ∧
    fwMol0.struct.latticeC = molArgs0.min_vacuum_size ∧
    (fwMol0.struct.sites ≠ [] → fracCentroid fwMol0.struct = (1/2, 1/2, 1/2)) :=
  molecule_centered_in_cubic_cell ext0 molArgs0 fwMol0
    (List.mem_singleton.mpr rfl)

/-- Claim C9: every molecule-relaxation job in the get_wf_molecules workflow
is parentless, so the workflow has no dependency edges. -/
theorem molecule_jobs_parentless (ext : ExternalLib) (a : MolArgs) :
    ∀ fw ∈ (get_wf_molecules ext a).fws, fw.parents = [] := by
  intro fw hfw
  obtain ⟨p, hp, hfw⟩ := List.mem_map.mp hfw
  rw [← hfw]
  rfl

/-- Witness for molecule_jobs_parentless at the concrete call. -/
theorem molecule_jobs_parentless_witness : fwMol0.parents = [] :=
  molecule_jobs_parentless ext0 molArgs0 fwMol0 (List.mem_singleton.mpr rfl)

end Matmethods
